import Mathlib

/-!
Verification development for the `py-proj` scaffolder (Rust sources
`src/main.rs`, `src/scaffold.rs`, `src/util.rs`).

The program is embedded shallowly:
* Strings are Lean `String`s; the Rust `split('.')` / `join(".")` /
  `replace('.', "")` pipeline of `main.rs` lines 104-106 is embedded via
  `splitChar` / `joinSep` / `List.filter` on the character lists.
* The filesystem is an abstract total map from paths (lists of
  components) to nodes (`dir`, `file` with content, `absent`).  Removal
  primitives may fail; a failed removal is modelled as leaving the tree
  unchanged.  External commands are modelled by a success oracle; their
  side effects outside the modelled tree are not tracked (the spec
  excludes them from the tested properties).
* `templates.rs` is not part of the provided sources; only the arities
  of its template functions (visible in `scaffold.rs`) are known, so the
  template set is an abstract record of pure functions.
-/

namespace PyProj

/-! ### Version derivation (main.rs lines 104-106)

`let mm = py_full.split('.').take(2).collect::<Vec<_>>().join(".");`
`let mm_nodec = mm.replace('.', "");` -/

/-- Rust `str::split(sep)` on a single-char pattern: splits a character
list at every occurrence of `sep`; the empty string yields one empty
component, as in Rust. -/
def splitChar (sep : Char) : List Char → List (List Char)
  | [] => [[]]
  | c :: cs =>
    let rest := splitChar sep cs
    if c = sep then [] :: rest
    else
      match rest with
      | [] => [[c]]
      | r :: rs => (c :: r) :: rs

/-- Rust `Vec::<&str>::join(sep)` for a single-char separator. -/
def joinSep (sep : Char) : List (List Char) → List Char
  | [] => []
  | [x] => x
  | x :: xs => x ++ sep :: joinSep sep xs

/-- The `mm` string: first two dot-separated components of `py_full`, joined by a
dot (main.rs line 105). -/
def mmOf (py_full : String) : String :=
  ⟨joinSep '.' ((splitChar '.' py_full.data).take 2)⟩

/-- The `mm_nodec` string: `mm` with every dot removed (main.rs line 106,
`mm.replace('.', "")`). -/
def mmNodecOf (py_full : String) : String :=
  ⟨(mmOf py_full).data.filter (fun c => c != '.')⟩

/-! ### Version prober (util.rs lines 31-48) -/

/-- The parts of the environment `detect_system_python` consults:
whether `which` finds `python3` / `python`, and for a found binary the
(lossy-decoded) stdout of the probe invocation, `none` when the
invocation itself fails. -/
structure PyEnv where
  whichPython3 : Option String
  whichPython : Option String
  probeOutput : String → Option String

/-- The candidate interpreter, `which::which("python3").or_else(|_| which::which("python")).ok()`. -/
def pythonCandidate (e : PyEnv) : Option String :=
  e.whichPython3.orElse fun _ => e.whichPython

/-- util.rs `detect_system_python`: probe the candidate interpreter,
return its trimmed stdout when non-empty, otherwise the fixed fallback
`"3.11.0"`.  Never fails. -/
def detect_system_python (e : PyEnv) : String :=
  match pythonCandidate e with
  | some bin =>
    match e.probeOutput bin with
    | some out =>
      let s := out.trim
      if s ≠ "" then s else "3.11.0"
    | none => "3.11.0"
  | none => "3.11.0"

/-! ### Filesystem model -/

/-- A filesystem node: a directory, a plain file with its content, or
nothing at that path. -/
inductive Node where
  | dir : Node
  | file : String → Node
  | absent : Node
deriving DecidableEq

/-- A path, as the list of its components. -/
abbrev FsPath := List String

/-- A filesystem: a total map from paths to nodes. -/
abbrev FS := FsPath → Node

/-- Model of `fs::create_dir_all`: the directory and all its ancestors exist
afterwards. -/
def mkdirAll (d : FsPath) (fs : FS) : FS :=
  fun q => if q <+: d then Node.dir else fs q

/-- util.rs `write`: create the parent directories, then create or
truncate the file and write the content (overwriting any previous
node at the path). -/
def writeFs (p : FsPath) (content : String) (fs : FS) : FS :=
  fun q =>
    if q = p then Node.file content
    else if q <+: p.dropLast then Node.dir
    else fs q

/-- Model of `fs::remove_dir_all` (successful case): the path and everything
below it is gone. -/
def removeDirAll (p : FsPath) (fs : FS) : FS :=
  fun q => if p <+: q then Node.absent else fs q

/-- Model of `fs::remove_file` (successful case). -/
def removeFile (p : FsPath) (fs : FS) : FS :=
  fun q => if q = p then Node.absent else fs q

/-! ### Template set (templates.rs)

Modelled from the spec: `templates.rs` is not among the provided
sources; the spec (sections 2 and 3) describes the template set as a
catalog of pure functions from the plan parameters to content strings,
and `scaffold.rs` fixes each function's arity.  The record below is
that catalog, with one field per template function. -/

structure Templates where
  main_py : String
  vscode_launch_json : String
  vscode_settings_json : String
  vscode_tasks_json : String
  dotenv : String
  envrc : String
  pyrefly_toml : String → String → String
  pyrightconfig_json : String → String
  pyproject_toml : String → String → String → String
  gitignore : String
  readme_md : String → String
  app_make_file_creator : String
  app_logging_my_colored_formatter_py : String
  app_logging_config07_json : String
  app_logging_constants_py : String
  app_logging_glogger_py : String
  app_logging_my_custom_json_class01_py : String
  app_logging_my_filters_py : String

/-! ### Scaffold plan (scaffold.rs) -/

/-- One observable step of a run: a file write or an external command
invocation. -/
inductive Event where
  | wrote : FsPath → Event
  | ran : String → List String → Event
deriving DecidableEq

/-- The filesystem together with the trace of observable steps so far. -/
structure RunState where
  fs : FS
  trace : List Event

/-- scaffold.rs `ScaffoldPlan`: the resolved parameters of one run. -/
structure ScaffoldPlan where
  root : FsPath
  project : String
  py_full : String
  mm : String
  mm_nodec : String

/-- One `util::write` call made by a render operation. -/
def writeFile (p : FsPath) (content : String) (st : RunState) : RunState :=
  { fs := writeFs p content st.fs, trace := st.trace ++ [Event.wrote p] }

/-- util.rs `run`: record the invocation, fail when the oracle says the
command exits non-zero. -/
def run (ok : String → List String → Bool) (cmd : String) (args : List String)
    (st : RunState) : RunState × Except String Unit :=
  let st := { st with trace := st.trace ++ [Event.ran cmd args] }
  if ok cmd args then (st, Except.ok ())
  else (st, Except.error (s!"command {cmd} failed"))

def write_basic_src (T : Templates) (plan : ScaffoldPlan) (st : RunState) : RunState :=
  let st := writeFile (plan.root ++ ["src", "__init__.py"]) "" st
  writeFile (plan.root ++ ["src", "main.py"]) T.main_py st

def write_vscode (T : Templates) (plan : ScaffoldPlan) (st : RunState) : RunState :=
  let st := writeFile (plan.root ++ [".vscode", "launch.json"]) T.vscode_launch_json st
  let st := writeFile (plan.root ++ [".vscode", "settings.json"]) T.vscode_settings_json st
  writeFile (plan.root ++ [".vscode", "tasks.json"]) T.vscode_tasks_json st

def write_envs (T : Templates) (plan : ScaffoldPlan) (st : RunState) : RunState :=
  let st := writeFile (plan.root ++ [".env"]) T.dotenv st
  writeFile (plan.root ++ [".envrc"]) T.envrc st

def write_pyrefly (T : Templates) (plan : ScaffoldPlan) (st : RunState) : RunState :=
  writeFile (plan.root ++ ["pyrefly.toml"]) (T.pyrefly_toml plan.project plan.py_full) st

def write_pyright (T : Templates) (plan : ScaffoldPlan) (st : RunState) : RunState :=
  writeFile (plan.root ++ ["pyrightconfig.json"]) (T.pyrightconfig_json plan.mm) st

def write_pyproject (T : Templates) (plan : ScaffoldPlan) (st : RunState) : RunState :=
  writeFile (plan.root ++ ["pyproject.toml"])
    (T.pyproject_toml plan.project plan.mm plan.mm_nodec) st

def write_gitignore (T : Templates) (plan : ScaffoldPlan) (st : RunState) : RunState :=
  writeFile (plan.root ++ [".gitignore"]) T.gitignore st

def write_readme (T : Templates) (plan : ScaffoldPlan) (st : RunState) : RunState :=
  writeFile (plan.root ++ ["README.md"]) (T.readme_md plan.project) st

def wirte_makefile (T : Templates) (plan : ScaffoldPlan) (st : RunState) : RunState :=
  writeFile (plan.root ++ ["Makefile"]) T.app_make_file_creator st

def write_app_logging (T : Templates) (plan : ScaffoldPlan) (st : RunState) : RunState :=
  let st := writeFile (plan.root ++ ["src", "app_logging", "__init__.py"]) "" st
  let st := writeFile (plan.root ++ ["src", "app_logging", "MyColoredFormatter.py"])
    T.app_logging_my_colored_formatter_py st
  let st := writeFile (plan.root ++ ["src", "app_logging", "config07.json"])
    T.app_logging_config07_json st
  let st := writeFile (plan.root ++ ["src", "app_logging", "constants.py"])
    T.app_logging_constants_py st
  let st := writeFile (plan.root ++ ["src", "app_logging", "glogger.py"])
    T.app_logging_glogger_py st
  let st := writeFile (plan.root ++ ["src", "app_logging", "myCustomJsonClass01.py"])
    T.app_logging_my_custom_json_class01_py st
  writeFile (plan.root ++ ["src", "app_logging", "myFilters.py"])
    T.app_logging_my_filters_py st

/-- scaffold.rs `install_uv_toolchain`: `uv python install <py_full>`
then `uv venv --python <py_full> .venv`, aborting on the first
failure. -/
def install_uv_toolchain (ok : String → List String → Bool) (plan : ScaffoldPlan)
    (st : RunState) : RunState × Except String Unit :=
  match run ok "uv" ["python", "install", plan.py_full] st with
  | (st, Except.error e) => (st, Except.error e)
  | (st, Except.ok _) => run ok "uv" ["venv", "--python", plan.py_full, ".venv"] st

/-! ### Create action (main.rs lines 225-258) -/

/-- The `fs::create_dir_all` loop of main.rs lines 233-235, over
`["src", "tests", "Notebooks", ".vscode", "src/app_logging"]`. -/
def mkSkeleton (root : FsPath) (st : RunState) : RunState :=
  { st with
    fs := mkdirAll (root ++ ["src", "app_logging"])
      (mkdirAll (root ++ [".vscode"])
        (mkdirAll (root ++ ["Notebooks"])
          (mkdirAll (root ++ ["tests"])
            (mkdirAll (root ++ ["src"]) st.fs)))) }

/-- The nine render operations main.rs lines 245-253 invoke before the
toolchain step, in source order. -/
def renderTemplates (T : Templates) (plan : ScaffoldPlan) (st : RunState) : RunState :=
  write_app_logging T plan
    (write_readme T plan
      (write_gitignore T plan
        (write_pyproject T plan
          (write_pyright T plan
            (write_pyrefly T plan
              (write_envs T plan
                (write_vscode T plan
                  (write_basic_src T plan st))))))))

/-- main.rs `create_project`: make the directory skeleton, run the
render operations in source order, and return the partial state when
the toolchain step fails.  Note the source calls `wirte_makefile`
after `install_uv_toolchain` (main.rs lines 254-255). -/
def create_project (T : Templates) (ok : String → List String → Bool) (root : FsPath)
    (project py_full mm mm_nodec : String) (st : RunState) :
    RunState × Except String Unit :=
  let plan : ScaffoldPlan := ⟨root, project, py_full, mm, mm_nodec⟩
  match install_uv_toolchain ok plan (renderTemplates T plan (mkSkeleton root st)) with
  | (st, Except.error e) => (st, Except.error e)
  | (st, Except.ok _) => (wirte_makefile T plan st, Except.ok ())

/-- The file-write events of one create run that precede the toolchain
invocation, in source order. -/
def preUvWrites (root : FsPath) : List Event :=
  [Event.wrote (root ++ ["src", "__init__.py"]),
   Event.wrote (root ++ ["src", "main.py"]),
   Event.wrote (root ++ [".vscode", "launch.json"]),
   Event.wrote (root ++ [".vscode", "settings.json"]),
   Event.wrote (root ++ [".vscode", "tasks.json"]),
   Event.wrote (root ++ [".env"]),
   Event.wrote (root ++ [".envrc"]),
   Event.wrote (root ++ ["pyrefly.toml"]),
   Event.wrote (root ++ ["pyrightconfig.json"]),
   Event.wrote (root ++ ["pyproject.toml"]),
   Event.wrote (root ++ [".gitignore"]),
   Event.wrote (root ++ ["README.md"]),
   Event.wrote (root ++ ["src", "app_logging", "__init__.py"]),
   Event.wrote (root ++ ["src", "app_logging", "MyColoredFormatter.py"]),
   Event.wrote (root ++ ["src", "app_logging", "config07.json"]),
   Event.wrote (root ++ ["src", "app_logging", "constants.py"]),
   Event.wrote (root ++ ["src", "app_logging", "glogger.py"]),
   Event.wrote (root ++ ["src", "app_logging", "myCustomJsonClass01.py"]),
   Event.wrote (root ++ ["src", "app_logging", "myFilters.py"])]

/-- A filesystem transformation that writes fixed content at a fixed
set of paths and keeps everything else: the common shape of every
create-side primitive. -/
def MaskedConst (f : FS → FS) : Prop :=
  ∃ m : FsPath → Option Node, ∀ fs q, f fs q = (m q).getD (fs q)

/-- A concrete template catalog, for closed counterexamples and
witnesses. -/
def sampleTemplates : Templates :=
  { main_py := "main"
    vscode_launch_json := "launch"
    vscode_settings_json := "settings"
    vscode_tasks_json := "tasks"
    dotenv := "env"
    envrc := "envrc"
    pyrefly_toml := fun p v => p ++ v
    pyrightconfig_json := fun mm => mm
    pyproject_toml := fun p mm mmn => p ++ mm ++ mmn
    gitignore := "git"
    readme_md := fun p => p
    app_make_file_creator := "make"
    app_logging_my_colored_formatter_py := "fmt"
    app_logging_config07_json := "cfg"
    app_logging_constants_py := "const"
    app_logging_glogger_py := "glog"
    app_logging_my_custom_json_class01_py := "json"
    app_logging_my_filters_py := "filters" }

/-- Write a list of (path, content) pairs in order. -/
def writeAll (ws : List (FsPath × String)) (fs : FS) : FS :=
  ws.foldl (fun fs pc => writeFs pc.1 pc.2 fs) fs

/-- The 19 (path, content) pairs written by the render operations
before the toolchain step, in source order. -/
def createWrites (T : Templates) (plan : ScaffoldPlan) : List (FsPath × String) :=
  [(plan.root ++ ["src", "__init__.py"], ""),
   (plan.root ++ ["src", "main.py"], T.main_py),
   (plan.root ++ [".vscode", "launch.json"], T.vscode_launch_json),
   (plan.root ++ [".vscode", "settings.json"], T.vscode_settings_json),
   (plan.root ++ [".vscode", "tasks.json"], T.vscode_tasks_json),
   (plan.root ++ [".env"], T.dotenv),
   (plan.root ++ [".envrc"], T.envrc),
   (plan.root ++ ["pyrefly.toml"], T.pyrefly_toml plan.project plan.py_full),
   (plan.root ++ ["pyrightconfig.json"], T.pyrightconfig_json plan.mm),
   (plan.root ++ ["pyproject.toml"],
     T.pyproject_toml plan.project plan.mm plan.mm_nodec),
   (plan.root ++ [".gitignore"], T.gitignore),
   (plan.root ++ ["README.md"], T.readme_md plan.project),
   (plan.root ++ ["src", "app_logging", "__init__.py"], ""),
   (plan.root ++ ["src", "app_logging", "MyColoredFormatter.py"],
     T.app_logging_my_colored_formatter_py),
   (plan.root ++ ["src", "app_logging", "config07.json"], T.app_logging_config07_json),
   (plan.root ++ ["src", "app_logging", "constants.py"], T.app_logging_constants_py),
   (plan.root ++ ["src", "app_logging", "glogger.py"], T.app_logging_glogger_py),
   (plan.root ++ ["src", "app_logging", "myCustomJsonClass01.py"],
     T.app_logging_my_custom_json_class01_py),
   (plan.root ++ ["src", "app_logging", "myFilters.py"], T.app_logging_my_filters_py)]

/-- The total effect of one create run on the filesystem component:
the directory skeleton, the 19 static writes, and — only when both
toolchain commands succeed — the Makefile write. -/
def createFsFun (T : Templates) (ok : String → List String → Bool) (root : FsPath)
    (project py_full mm mm_nodec : String) : FS → FS :=
  fun fs =>
    let plan : ScaffoldPlan := ⟨root, project, py_full, mm, mm_nodec⟩
    let base := writeAll (createWrites T plan)
      (mkdirAll (root ++ ["src", "app_logging"])
        (mkdirAll (root ++ [".vscode"])
          (mkdirAll (root ++ ["Notebooks"])
            (mkdirAll (root ++ ["tests"])
              (mkdirAll (root ++ ["src"]) fs)))))
    if ok "uv" ["python", "install", py_full]
        && ok "uv" ["venv", "--python", py_full, ".venv"] then
      writeFs (root ++ ["Makefile"]) T.app_make_file_creator base
    else base

/-- A command oracle under which every external command fails. -/
def uvNever : String → List String → Bool := fun _ _ => false

/-- A command oracle under which every external command succeeds. -/
def uvAlways : String → List String → Bool := fun _ _ => true

/-- The empty filesystem. -/
def emptyFs : FS := fun _ => Node.absent

/-! ### Clean action (main.rs lines 261-296) -/

/-- The fixed cache list of `clean_project`, in source order. -/
def cacheDirs : List FsPath :=
  [[".venv"], ["__pycache__"], [".pytest_cache"], [".mypy_cache"],
   [".ruff_cache"], [".ipynb_checkpoints"], ["build"], ["dist"],
   ["htmlcov"], [".coverage"], [".cache"], ["src", "__pycache__"],
   ["tests", "__pycache__"], ["Notebooks", ".ipynb_checkpoints"]]

/-- One iteration of `clean_project`'s loop: if the path is a directory
try `remove_dir_all`, if it is the `.coverage` file try `remove_file`;
the result of either removal is discarded (`let _ = ...`), a failing
removal leaving the tree unchanged. -/
def cleanStep (fails : FsPath → Bool) (root : FsPath) (fs : FS) (rel : FsPath) : FS :=
  let p := root ++ rel
  match fs p with
  | Node.dir => if fails p then fs else removeDirAll p fs
  | Node.file _ =>
    if rel = [".coverage"] then (if fails p then fs else removeFile p fs) else fs
  | Node.absent => fs

/-- main.rs `clean_project`: best-effort removal of every cache entry;
always returns `Ok(())`. -/
def clean_project (fails : FsPath → Bool) (root : FsPath) (fs : FS) :
    FS × Except String Unit :=
  (cacheDirs.foldl (cleanStep fails root) fs, Except.ok ())

/-! ### Delete action (main.rs lines 298-308) -/

/-- main.rs `delete_project`: remove the whole root when it exists,
propagating a removal failure; skip when it does not exist. -/
def delete_project (fails : FsPath → Bool) (root : FsPath) (fs : FS) :
    FS × Except String Unit :=
  if fs root = Node.absent then (fs, Except.ok ())
  else if fails root then (fs, Except.error "Failed to delete")
  else (removeDirAll root fs, Except.ok ())

/-! ### Dispatcher (main.rs lines 79-142) -/

/-- The primary action flags of the CLI (help/version resolve before
any action and are omitted). -/
structure Cli where
  create_project : Bool
  clean_project : Bool
  delete_project : Bool
  yes : Bool

/-- The refusal message of main.rs lines 131-135, colour codes elided. -/
def refusalMsg : String :=
  "Refusing to delete without confirmation. Use --yes to confirm deletion."

/-- main.rs `main` after parameter resolution: derive `mm`/`mm_nodec`,
then run the requested actions in sequence create, clean, delete; an
error from any action (or the missing `--yes` confirmation on delete)
stops the sequence and is returned. -/
def mainRun (T : Templates) (ok : String → List String → Bool) (fails : FsPath → Bool)
    (cli : Cli) (root : FsPath) (project py_full : String) (st : RunState) :
    RunState × Except String Unit :=
  let mm := mmOf py_full
  let mm_nodec := mmNodecOf py_full
  match (if cli.create_project then
           create_project T ok root project py_full mm mm_nodec st
         else (st, Except.ok ())) with
  | (st, Except.error e) => (st, Except.error e)
  | (st, Except.ok _) =>
    match (if cli.clean_project then
             match clean_project fails root st.fs with
             | (fs, r) => ({ st with fs := fs }, r)
           else (st, Except.ok ())) with
    | (st, Except.error e) => (st, Except.error e)
    | (st, Except.ok _) =>
      if cli.delete_project then
        if !cli.yes then (st, Except.error refusalMsg)
        else
          match delete_project fails root st.fs with
          | (fs, r) => ({ st with fs := fs }, r)
      else (st, Except.ok ())

/-- The `anyhow::Result` exit behaviour: `Ok` exits 0, `Err` exits 1. -/
def exitCode : Except String Unit → Nat
  | Except.ok _ => 0
  | Except.error _ => 1

/-! ## Lemmas about the version derivation -/

theorem splitChar_cons_exists (sep : Char) (s : List Char) :
    ∃ r rs, splitChar sep s = r :: rs := by
  induction s with
  | nil => exact ⟨[], [], rfl⟩
  | cons c cs ih =>
    obtain ⟨r, rs, h⟩ := ih
    by_cases hc : c = sep
    · exact ⟨[], splitChar sep cs, by simp [splitChar, hc]⟩
    · exact ⟨c :: r, rs, by simp [splitChar, hc, h]⟩

theorem splitChar_ne_nil (sep : Char) (s : List Char) : splitChar sep s ≠ [] := by
  obtain ⟨r, rs, h⟩ := splitChar_cons_exists sep s
  simp [h]

theorem splitChar_append_sep (sep : Char) (x rest : List Char)
    (hx : ∀ c ∈ x, c ≠ sep) :
    splitChar sep (x ++ sep :: rest) = x :: splitChar sep rest := by
  induction x with
  | nil => simp [splitChar]
  | cons a x ih =>
    have ha : a ≠ sep := hx a (by simp)
    have ih' := ih fun c hc => hx c (by simp [hc])
    simp [splitChar, ha, ih']

theorem splitChar_sep_not_mem (sep : Char) (s : List Char) :
    ∀ l ∈ splitChar sep s, sep ∉ l := by
  induction s with
  | nil => simp [splitChar]
  | cons c cs ih =>
    obtain ⟨r, rs, h⟩ := splitChar_cons_exists sep cs
    by_cases hc : c = sep
    · simpa [splitChar, hc] using ih
    · have hr : sep ∉ r := ih r (by simp [h])
      have hrs : ∀ l ∈ rs, sep ∉ l := fun l hl => ih l (by simp [h, hl])
      intro l hl
      rw [show splitChar sep (c :: cs) = (c :: r) :: rs by simp [splitChar, hc, h],
        List.mem_cons] at hl
      rcases hl with hl | hl
      · subst hl
        simp only [List.mem_cons]
        rintro (rfl | hmem)
        · exact hc rfl
        · exact hr hmem
      · exact hrs l hl

theorem joinSep_cons_head (sep c : Char) (r : List Char) (rs : List (List Char)) :
    joinSep sep ((c :: r) :: rs) = c :: joinSep sep (r :: rs) := by
  cases rs <;> simp [joinSep]

theorem joinSep_splitChar (sep : Char) (s : List Char) :
    joinSep sep (splitChar sep s) = s := by
  induction s with
  | nil => rfl
  | cons c cs ih =>
    obtain ⟨r, rs, h⟩ := splitChar_cons_exists sep cs
    by_cases hc : c = sep
    · rw [show splitChar sep (c :: cs) = [] :: splitChar sep cs by simp [splitChar, hc], h]
      rw [show joinSep sep ([] :: r :: rs) = sep :: joinSep sep (r :: rs) by simp [joinSep]]
      rw [← h, ih, hc]
    · rw [show splitChar sep (c :: cs) = (c :: r) :: rs by simp [splitChar, hc, h]]
      rw [joinSep_cons_head, ← h, ih]

theorem splitChar_two_seps (sep : Char) (x y z : List Char)
    (hx : ∀ c ∈ x, c ≠ sep) (hy : ∀ c ∈ y, c ≠ sep) :
    splitChar sep (x ++ sep :: (y ++ sep :: z)) = x :: y :: splitChar sep z := by
  rw [splitChar_append_sep sep x _ hx, splitChar_append_sep sep y _ hy]

theorem filter_ne_dot_eq_self (l : List Char) (h : ∀ c ∈ l, c ≠ '.') :
    l.filter (fun c => c != '.') = l := by
  rw [List.filter_eq_self]
  intro a ha
  simpa using h a ha

theorem take_min_length {α : Type} (l : List α) (n : ℕ) :
    l.take (min n l.length) = l.take n := by
  rw [← List.take_take, List.take_length]

/-! ## Claim theorems: version derivation -/

/-- C2: for every `py_full` of the form `"X.Y.Z"` (three dot-separated
components), `mm` equals the first two components joined by a dot and
`mm_nodec` equals `mm` with the dot removed. -/
theorem c2_mm_derivation (x y z : String)
    (hx : ∀ c ∈ x.data, c ≠ '.') (hy : ∀ c ∈ y.data, c ≠ '.')
    (hz : ∀ c ∈ z.data, c ≠ '.') :
    mmOf (x ++ "." ++ y ++ "." ++ z) = x ++ "." ++ y ∧
      mmNodecOf (x ++ "." ++ y ++ "." ++ z) = x ++ y := by
  have hdata : (x ++ "." ++ y ++ "." ++ z).data
      = x.data ++ '.' :: (y.data ++ '.' :: z.data) := by
    simp [String.data_append]
  have hsplit : splitChar '.' (x ++ "." ++ y ++ "." ++ z).data
      = x.data :: y.data :: splitChar '.' z.data := by
    rw [hdata]
    exact splitChar_two_seps '.' x.data y.data z.data hx hy
  have hmmdata : (mmOf (x ++ "." ++ y ++ "." ++ z)).data = x.data ++ '.' :: y.data := by
    show joinSep '.' ((splitChar '.' (x ++ "." ++ y ++ "." ++ z).data).take 2)
      = x.data ++ '.' :: y.data
    rw [hsplit]
    simp [joinSep]
  constructor
  · apply String.ext
    rw [hmmdata]
    simp [String.data_append]
  · apply String.ext
    show (mmOf (x ++ "." ++ y ++ "." ++ z)).data.filter (fun c => c != '.')
      = (x ++ y).data
    rw [hmmdata]
    rw [show x.data ++ '.' :: y.data = x.data ++ ['.'] ++ y.data by simp]
    rw [List.filter_append, List.filter_append,
      filter_ne_dot_eq_self x.data hx, filter_ne_dot_eq_self y.data hy]
    simp [String.data_append]

/-- Witness for C2 at `py_full = "3.13.5"`. -/
theorem c2_mm_derivation_witness :
    mmOf "3.13.5" = "3.13" ∧ mmNodecOf "3.13.5" = "313" :=
  c2_mm_derivation "3" "13" "5" (by decide) (by decide) (by decide)

/-- C10: the derivation of `mm` and `mm_nodec` is total: every string
`py_full` decomposes into a non-empty list of dot-free components whose
rejoining is `py_full`; `mm` is the first `min 2 n` components joined
by a dot, and `mm_nodec` is that with all dots removed. -/
theorem c10_derivation_total (s : String) :
    ∃ cs : List (List Char), cs ≠ [] ∧ (∀ l ∈ cs, ∀ c ∈ l, c ≠ '.') ∧
      s.data = joinSep '.' cs ∧
      (mmOf s).data = joinSep '.' (cs.take (min 2 cs.length)) ∧
      (mmNodecOf s).data
        = (joinSep '.' (cs.take (min 2 cs.length))).filter (fun c => c != '.') := by
  refine ⟨splitChar '.' s.data, splitChar_ne_nil '.' s.data, ?_, ?_, ?_, ?_⟩
  · intro l hl c hc hceq
    exact (splitChar_sep_not_mem '.' s.data l hl) (hceq ▸ hc)
  · exact (joinSep_splitChar '.' s.data).symm
  · rw [take_min_length]
    rfl
  · rw [take_min_length]
    rfl

/-! ## Claim theorem: version prober -/

/-- C3: `detect_system_python` is infallible and returns exactly
`"3.11.0"` whenever no interpreter is discoverable, or the probe
invocation fails, or the probe's trimmed stdout is empty. -/
theorem c3_detect_fallback (e : PyEnv) :
    (e.whichPython3 = none → e.whichPython = none →
      detect_system_python e = "3.11.0") ∧
    (∀ bin, pythonCandidate e = some bin → e.probeOutput bin = none →
      detect_system_python e = "3.11.0") ∧
    (∀ bin out, pythonCandidate e = some bin → e.probeOutput bin = some out →
      out.trim = "" → detect_system_python e = "3.11.0") := by
  refine ⟨?_, ?_, ?_⟩
  · intro h3 h
    simp [detect_system_python, pythonCandidate, h3, h, Option.orElse]
  · intro bin hc hp
    simp [detect_system_python, hc, hp]
  · intro bin out hc hp ht
    simp [detect_system_python, hc, hp, ht]

/-- Witness for C3: the environment with no interpreter at all. -/
theorem c3_detect_fallback_witness :
    detect_system_python ⟨none, none, fun _ => none⟩ = "3.11.0" :=
  (c3_detect_fallback ⟨none, none, fun _ => none⟩).1 rfl rfl

/-! ## Lemmas about the clean action -/

theorem append_front_iff {α : Type} (r d e : List α) :
    r ++ d <+: r ++ e ↔ d <+: e := by
  constructor
  · rintro ⟨t, ht⟩
    exact ⟨t, List.append_cancel_left (by rw [← List.append_assoc]; exact ht)⟩
  · rintro ⟨t, ht⟩
    exact ⟨t, by rw [List.append_assoc, ht]⟩

/-- No entry of the cache list is a proper or improper prefix of a
different entry. -/
theorem cacheDirs_no_pref : ∀ d ∈ cacheDirs, ∀ e ∈ cacheDirs, d ≠ e → ¬ (d <+: e) := by
  decide

/-- The value of `cleanStep` when the entry is a directory. -/
theorem cleanStep_eq_dir (fails : FsPath → Bool) (root : FsPath) (fs : FS) (d : FsPath)
    (hn : fs (root ++ d) = Node.dir) :
    cleanStep fails root fs d
      = if fails (root ++ d) then fs else removeDirAll (root ++ d) fs := by
  simp only [cleanStep]
  rw [hn]

/-- The value of `cleanStep` when the entry is a plain file. -/
theorem cleanStep_eq_file (fails : FsPath → Bool) (root : FsPath) (fs : FS) (d : FsPath)
    (c : String) (hn : fs (root ++ d) = Node.file c) :
    cleanStep fails root fs d
      = if d = [".coverage"] then
          (if fails (root ++ d) then fs else removeFile (root ++ d) fs)
        else fs := by
  simp only [cleanStep]
  rw [hn]

/-- The value of `cleanStep` when the entry does not exist. -/
theorem cleanStep_eq_absent (fails : FsPath → Bool) (root : FsPath) (fs : FS) (d : FsPath)
    (hn : fs (root ++ d) = Node.absent) :
    cleanStep fails root fs d = fs := by
  simp only [cleanStep]
  rw [hn]

attribute [irreducible] cleanStep

/-- A clean iteration only touches paths lying under `root ++ rel`. -/
theorem cleanStep_frame (fails : FsPath → Bool) (root : FsPath) (fs : FS)
    (d q : FsPath) (h : ¬ (root ++ d <+: q)) :
    cleanStep fails root fs d q = fs q := by
  have hq : q ≠ root ++ d := fun he => h (he ▸ ⟨[], by simp⟩)
  cases hn : fs (root ++ d) with
  | dir =>
    rw [cleanStep_eq_dir fails root fs d hn]
    split_ifs <;> simp [removeDirAll, h]
  | file c =>
    rw [cleanStep_eq_file fails root fs d c hn]
    split_ifs <;> simp [removeFile, hq]
  | absent => rw [cleanStep_eq_absent fails root fs d hn]

/-- A clean iteration either keeps a path's node or removes it. -/
theorem cleanStep_absent_or_same (fails : FsPath → Bool) (root : FsPath) (fs : FS)
    (d q : FsPath) :
    cleanStep fails root fs d q = fs q ∨ cleanStep fails root fs d q = Node.absent := by
  cases hn : fs (root ++ d) with
  | dir =>
    rw [cleanStep_eq_dir fails root fs d hn]
    split_ifs
    · left; rfl
    · simp only [removeDirAll]
      split_ifs <;> simp
  | file c =>
    rw [cleanStep_eq_file fails root fs d c hn]
    split_ifs <;> try (left; rfl)
    simp only [removeFile]
    split_ifs <;> simp
  | absent =>
    rw [cleanStep_eq_absent fails root fs d hn]
    left; rfl

theorem foldl_cleanStep_frame (fails : FsPath → Bool) (root : FsPath)
    (l : List FsPath) (fs : FS) (q : FsPath)
    (h : ∀ d ∈ l, ¬ (root ++ d <+: q)) :
    l.foldl (cleanStep fails root) fs q = fs q := by
  induction l generalizing fs with
  | nil => rfl
  | cons d ds ih =>
    rw [List.foldl_cons, ih _ fun e he => h e (by simp [he])]
    exact cleanStep_frame fails root fs d q (h d (by simp))

theorem foldl_cleanStep_absent_or_same (fails : FsPath → Bool) (root : FsPath)
    (l : List FsPath) (fs : FS) (q : FsPath) :
    l.foldl (cleanStep fails root) fs q = fs q ∨
      l.foldl (cleanStep fails root) fs q = Node.absent := by
  induction l generalizing fs with
  | nil => left; rfl
  | cons d ds ih =>
    rw [List.foldl_cons]
    rcases ih (cleanStep fails root fs d) with h | h
    · rw [h]
      exact cleanStep_absent_or_same fails root fs d q
    · right; exact h

/-- A clean iteration for a different cache entry does not touch the
path of entry `e`; the iteration for `e` itself keeps a non-`.coverage`
plain file. -/
theorem cleanStep_keeps_file (fails : FsPath → Bool) (root : FsPath) (fs : FS)
    (d e : FsPath) (c : String) (hd : d ∈ cacheDirs) (he : e ∈ cacheDirs)
    (hne : e ≠ [".coverage"]) (hfs : fs (root ++ e) = Node.file c) :
    cleanStep fails root fs d (root ++ e) = Node.file c := by
  by_cases hde : d = e
  · subst hde
    rw [cleanStep_eq_file fails root fs d c hfs, if_neg hne]
    exact hfs
  · have hnp : ¬ (root ++ d <+: root ++ e) := by
      rw [append_front_iff]
      exact cacheDirs_no_pref d hd e he hde
    rw [cleanStep_frame fails root fs d _ hnp]
    exact hfs

theorem foldl_cleanStep_keeps_file (fails : FsPath → Bool) (root e : FsPath)
    (c : String) (he : e ∈ cacheDirs) (hne : e ≠ [".coverage"]) :
    ∀ l : List FsPath, (∀ d ∈ l, d ∈ cacheDirs) →
      ∀ fs : FS, fs (root ++ e) = Node.file c →
        l.foldl (cleanStep fails root) fs (root ++ e) = Node.file c := by
  intro l
  induction l with
  | nil => intro _ fs hfs; exact hfs
  | cons d ds ih =>
    intro hl fs hfs
    rw [List.foldl_cons]
    exact ih (fun x hx => hl x (by simp [hx]))
      (cleanStep fails root fs d)
      (cleanStep_keeps_file fails root fs d e c (hl d (by simp)) he hne hfs)

/-- The iteration for entry `e` removes an existing directory when its
removal does not fail, and later iterations keep it removed. -/
theorem foldl_cleanStep_removes_dir (fails : FsPath → Bool) (root e : FsPath)
    (he : e ∈ cacheDirs) (hf : fails (root ++ e) = false) :
    ∀ l : List FsPath, (∀ d ∈ l, d ∈ cacheDirs) → e ∈ l →
      ∀ fs : FS, fs (root ++ e) = Node.dir →
        l.foldl (cleanStep fails root) fs (root ++ e) = Node.absent := by
  intro l
  induction l with
  | nil => intro _ hel; cases hel
  | cons d ds ih =>
    intro hl hel fs hfs
    rw [List.foldl_cons]
    by_cases hde : d = e
    · subst hde
      have hrefl : root ++ d <+: root ++ d := ⟨[], by simp⟩
      have hstep : cleanStep fails root fs d (root ++ d) = Node.absent := by
        rw [cleanStep_eq_dir fails root fs d hfs, if_neg (by simp [hf])]
        simp [removeDirAll, hrefl]
      rcases foldl_cleanStep_absent_or_same fails root ds
        (cleanStep fails root fs d) (root ++ d) with h | h
      · rw [h, hstep]
      · exact h
    · have he' : e ∈ ds := by
        rcases List.mem_cons.mp hel with h | h
        · exact absurd h.symm hde
        · exact h
      have hnp : ¬ (root ++ d <+: root ++ e) := by
        rw [append_front_iff]
        exact cacheDirs_no_pref d (hl d (by simp)) e he hde
      apply ih (fun x hx => hl x (by simp [hx])) he'
      rw [cleanStep_frame fails root fs d _ hnp]
      exact hfs

/-! ## Claim theorems: clean action -/

/-- C4: `clean_project` succeeds from every starting filesystem state
and every pattern of removal failures, and an entry whose own removal
does not fail is still removed even when other removals fail. -/
theorem c4_clean_always_ok (fails : FsPath → Bool) (root : FsPath) (fs : FS) :
    (clean_project fails root fs).2 = Except.ok () ∧
    (∀ e ∈ cacheDirs, fails (root ++ e) = false → fs (root ++ e) = Node.dir →
      (clean_project fails root fs).1 (root ++ e) = Node.absent) := by
  refine ⟨rfl, ?_⟩
  intro e he hf hd
  exact foldl_cleanStep_removes_dir fails root e he hf cacheDirs
    (fun d hmem => hmem) he fs hd

/-- Witness for C4: everything fails to be removed except `.venv`,
which is a directory and is still removed; clean still succeeds. -/
theorem c4_clean_always_ok_witness :
    (clean_project (fun p => !(p = ["p", ".venv"])) ["p"]
        (fun q => if q = ["p", ".venv"] then Node.dir else Node.absent)).2
      = Except.ok () ∧
    (clean_project (fun p => !(p = ["p", ".venv"])) ["p"]
        (fun q => if q = ["p", ".venv"] then Node.dir else Node.absent)).1
        (["p"] ++ [".venv"]) = Node.absent :=
  ⟨(c4_clean_always_ok _ _ _).1,
    (c4_clean_always_ok _ _ _).2 [".venv"] (by decide) (by decide) (by decide)⟩

/-- C5: clean changes no path that is not under an entry of the fixed
cache list, and any path it does change is removed (never created or
rewritten). -/
theorem c5_clean_frame (fails : FsPath → Bool) (root : FsPath) (fs : FS) (q : FsPath) :
    ((∀ e ∈ cacheDirs, ¬ (root ++ e <+: q)) →
      (clean_project fails root fs).1 q = fs q) ∧
    ((clean_project fails root fs).1 q = fs q ∨
      (clean_project fails root fs).1 q = Node.absent) := by
  constructor
  · intro h
    exact foldl_cleanStep_frame fails root cacheDirs fs q h
  · exact foldl_cleanStep_absent_or_same fails root cacheDirs fs q

/-- Witness for C5: `src/main.py` is untouched by a clean that removes
`.venv`. -/
theorem c5_clean_frame_witness :
    (clean_project (fun _ => false) ["p"]
        (fun q => if q = ["p", "src", "main.py"] then Node.file "print"
          else if q = ["p", ".venv"] then Node.dir else Node.absent)).1
      ["p", "src", "main.py"] = Node.file "print" := by
  have h := (c5_clean_frame (fun _ => false) ["p"]
    (fun q => if q = ["p", "src", "main.py"] then Node.file "print"
      else if q = ["p", ".venv"] then Node.dir else Node.absent)
    ["p", "src", "main.py"]).1 (by decide)
  rw [h]
  simp

/-- C9: a cache entry other than `.coverage` that exists as a plain
file is left unchanged by clean. -/
theorem c9_plain_file_entry_kept (fails : FsPath → Bool) (root : FsPath) (fs : FS)
    (e : FsPath) (c : String) (he : e ∈ cacheDirs) (hne : e ≠ [".coverage"])
    (hf : fs (root ++ e) = Node.file c) :
    (clean_project fails root fs).1 (root ++ e) = Node.file c :=
  foldl_cleanStep_keeps_file fails root e c he hne cacheDirs
    (fun d hmem => hmem) fs hf

/-- Witness for C9: `.venv` existing as a plain file survives clean. -/
theorem c9_plain_file_entry_kept_witness :
    (clean_project (fun _ => false) ["p"]
        (fun q => if q = ["p", ".venv"] then Node.file "oops" else Node.absent)).1
      (["p"] ++ [".venv"]) = Node.file "oops" :=
  c9_plain_file_entry_kept (fun _ => false) ["p"]
    (fun q => if q = ["p", ".venv"] then Node.file "oops" else Node.absent)
    [".venv"] "oops" (by decide) (by decide) (by decide)

/-! ## Lemmas about the create action -/

theorem run_eq_of_true {ok : String → List String → Bool} {cmd : String}
    {args : List String} (h : ok cmd args = true) (st : RunState) :
    run ok cmd args st
      = ({ st with trace := st.trace ++ [Event.ran cmd args] }, Except.ok ()) := by
  simp [run, h]

theorem run_eq_of_false {ok : String → List String → Bool} {cmd : String}
    {args : List String} (h : ok cmd args = false) (st : RunState) :
    run ok cmd args st
      = ({ st with trace := st.trace ++ [Event.ran cmd args] },
         Except.error (s!"command {cmd} failed")) := by
  simp [run, h]

theorem install_uv_toolchain_eq_ok {ok : String → List String → Bool}
    (plan : ScaffoldPlan) (st : RunState)
    (h1 : ok "uv" ["python", "install", plan.py_full] = true)
    (h2 : ok "uv" ["venv", "--python", plan.py_full, ".venv"] = true) :
    install_uv_toolchain ok plan st
      = ({ st with trace := st.trace
            ++ [Event.ran "uv" ["python", "install", plan.py_full],
                Event.ran "uv" ["venv", "--python", plan.py_full, ".venv"]] },
         Except.ok ()) := by
  simp [install_uv_toolchain, run_eq_of_true h1, run_eq_of_true h2]

theorem install_uv_toolchain_eq_fail1 {ok : String → List String → Bool}
    (plan : ScaffoldPlan) (st : RunState)
    (h1 : ok "uv" ["python", "install", plan.py_full] = false) :
    install_uv_toolchain ok plan st
      = ({ st with trace := st.trace
            ++ [Event.ran "uv" ["python", "install", plan.py_full]] },
         Except.error (s!"command uv failed")) := by
  simp [install_uv_toolchain, run_eq_of_false h1]
  rfl

theorem install_uv_toolchain_eq_fail2 {ok : String → List String → Bool}
    (plan : ScaffoldPlan) (st : RunState)
    (h1 : ok "uv" ["python", "install", plan.py_full] = true)
    (h2 : ok "uv" ["venv", "--python", plan.py_full, ".venv"] = false) :
    install_uv_toolchain ok plan st
      = ({ st with trace := st.trace
            ++ [Event.ran "uv" ["python", "install", plan.py_full],
                Event.ran "uv" ["venv", "--python", plan.py_full, ".venv"]] },
         Except.error (s!"command uv failed")) := by
  simp [install_uv_toolchain, run_eq_of_true h1, run_eq_of_false h2]
  rfl

theorem renderTemplates_trace (T : Templates) (plan : ScaffoldPlan) (st : RunState) :
    (renderTemplates T plan st).trace = st.trace ++ preUvWrites plan.root := by
  simp [renderTemplates, write_basic_src, write_vscode, write_envs, write_pyrefly,
    write_pyright, write_pyproject, write_gitignore, write_readme, write_app_logging,
    writeFile, preUvWrites]

theorem renderTemplates_fs (T : Templates) (plan : ScaffoldPlan) (st : RunState) :
    (renderTemplates T plan st).fs = writeAll (createWrites T plan) st.fs := by
  simp [renderTemplates, write_basic_src, write_vscode, write_envs, write_pyrefly,
    write_pyright, write_pyproject, write_gitignore, write_readme, write_app_logging,
    writeFile, writeAll, createWrites]

theorem mkSkeleton_trace (root : FsPath) (st : RunState) :
    (mkSkeleton root st).trace = st.trace := rfl

theorem maskedConst_id : MaskedConst (fun fs => fs) :=
  ⟨fun _ => none, fun _ _ => rfl⟩

theorem maskedConst_comp {f g : FS → FS} (hf : MaskedConst f) (hg : MaskedConst g) :
    MaskedConst (fun fs => f (g fs)) := by
  obtain ⟨mf, hmf⟩ := hf
  obtain ⟨mg, hmg⟩ := hg
  refine ⟨fun q => (mf q).orElse fun _ => mg q, fun fs q => ?_⟩
  show f (g fs) q = ((mf q).orElse fun _ => mg q).getD (fs q)
  rw [hmf, hmg]
  cases mf q <;> cases mg q <;> simp [Option.orElse]

theorem maskedConst_writeFs (p : FsPath) (c : String) : MaskedConst (writeFs p c) := by
  refine ⟨fun q => if q = p then some (Node.file c)
    else if q <+: p.dropLast then some Node.dir else none, fun fs q => ?_⟩
  simp only [writeFs]
  split_ifs <;> simp

theorem maskedConst_mkdirAll (d : FsPath) : MaskedConst (mkdirAll d) := by
  refine ⟨fun q => if q <+: d then some Node.dir else none, fun fs q => ?_⟩
  simp only [mkdirAll]
  split_ifs <;> simp

theorem maskedConst_writeAll (ws : List (FsPath × String)) :
    MaskedConst (writeAll ws) := by
  induction ws with
  | nil => exact maskedConst_id
  | cons w ws ih =>
    have hw : writeAll (w :: ws) = fun fs => writeAll ws (writeFs w.1 w.2 fs) := rfl
    rw [hw]
    exact maskedConst_comp ih (maskedConst_writeFs w.1 w.2)

theorem maskedConst_idem {f : FS → FS} (hf : MaskedConst f) (fs : FS) :
    f (f fs) = f fs := by
  obtain ⟨m, hm⟩ := hf
  funext q
  rw [hm, hm]
  cases m q <;> simp

theorem maskedConst_createFsFun (T : Templates) (ok : String → List String → Bool)
    (root : FsPath) (project py_full mm mm_nodec : String) :
    MaskedConst (createFsFun T ok root project py_full mm mm_nodec) := by
  have hbase : MaskedConst (fun fs : FS =>
      writeAll (createWrites T ⟨root, project, py_full, mm, mm_nodec⟩)
        (mkdirAll (root ++ ["src", "app_logging"])
          (mkdirAll (root ++ [".vscode"])
            (mkdirAll (root ++ ["Notebooks"])
              (mkdirAll (root ++ ["tests"])
                (mkdirAll (root ++ ["src"]) fs)))))) :=
    maskedConst_comp (maskedConst_writeAll _)
      (maskedConst_comp (maskedConst_mkdirAll _)
        (maskedConst_comp (maskedConst_mkdirAll _)
          (maskedConst_comp (maskedConst_mkdirAll _)
            (maskedConst_comp (maskedConst_mkdirAll _)
              (maskedConst_mkdirAll _)))))
  by_cases hc : (ok "uv" ["python", "install", py_full]
      && ok "uv" ["venv", "--python", py_full, ".venv"]) = true
  · have he : createFsFun T ok root project py_full mm mm_nodec = fun fs =>
        writeFs (root ++ ["Makefile"]) T.app_make_file_creator
          (writeAll (createWrites T ⟨root, project, py_full, mm, mm_nodec⟩)
            (mkdirAll (root ++ ["src", "app_logging"])
              (mkdirAll (root ++ [".vscode"])
                (mkdirAll (root ++ ["Notebooks"])
                  (mkdirAll (root ++ ["tests"])
                    (mkdirAll (root ++ ["src"]) fs)))))) := by
      funext fs
      simp [createFsFun, hc]
    rw [he]
    exact maskedConst_comp (maskedConst_writeFs _ _) hbase
  · have he : createFsFun T ok root project py_full mm mm_nodec = fun fs =>
        writeAll (createWrites T ⟨root, project, py_full, mm, mm_nodec⟩)
          (mkdirAll (root ++ ["src", "app_logging"])
            (mkdirAll (root ++ [".vscode"])
              (mkdirAll (root ++ ["Notebooks"])
                (mkdirAll (root ++ ["tests"])
                  (mkdirAll (root ++ ["src"]) fs))))) := by
      funext fs
      simp [createFsFun, hc]
    rw [he]
    exact hbase

theorem create_project_fst_fs (T : Templates) (ok : String → List String → Bool)
    (root : FsPath) (project py_full mm mm_nodec : String) (st : RunState) :
    ((create_project T ok root project py_full mm mm_nodec st).1).fs
      = createFsFun T ok root project py_full mm mm_nodec st.fs := by
  by_cases h1 : ok "uv" ["python", "install", py_full] = true
  · by_cases h2 : ok "uv" ["venv", "--python", py_full, ".venv"] = true
    · rw [show create_project T ok root project py_full mm mm_nodec st
          = (wirte_makefile T ⟨root, project, py_full, mm, mm_nodec⟩
              { renderTemplates T ⟨root, project, py_full, mm, mm_nodec⟩
                  (mkSkeleton root st) with
                trace := (renderTemplates T ⟨root, project, py_full, mm, mm_nodec⟩
                    (mkSkeleton root st)).trace
                  ++ [Event.ran "uv" ["python", "install", py_full],
                      Event.ran "uv" ["venv", "--python", py_full, ".venv"]] },
             Except.ok ()) by
        simp only [create_project]
        rw [install_uv_toolchain_eq_ok _ _ h1 h2]]
      show writeFs _ _ _ = _
      rw [show ({ renderTemplates T ⟨root, project, py_full, mm, mm_nodec⟩
            (mkSkeleton root st) with
          trace := (renderTemplates T ⟨root, project, py_full, mm, mm_nodec⟩
              (mkSkeleton root st)).trace
            ++ [Event.ran "uv" ["python", "install", py_full],
                Event.ran "uv" ["venv", "--python", py_full, ".venv"]] } : RunState).fs
          = (renderTemplates T ⟨root, project, py_full, mm, mm_nodec⟩
              (mkSkeleton root st)).fs from rfl]
      rw [renderTemplates_fs]
      simp [createFsFun, h1, h2, mkSkeleton]
    · rw [show create_project T ok root project py_full mm mm_nodec st
          = ({ renderTemplates T ⟨root, project, py_full, mm, mm_nodec⟩
                (mkSkeleton root st) with
              trace := (renderTemplates T ⟨root, project, py_full, mm, mm_nodec⟩
                  (mkSkeleton root st)).trace
                ++ [Event.ran "uv" ["python", "install", py_full],
                    Event.ran "uv" ["venv", "--python", py_full, ".venv"]] },
             Except.error (s!"command uv failed")) by
        simp only [create_project]
        rw [install_uv_toolchain_eq_fail2 _ _ h1 (by simpa using h2)]]
      show (renderTemplates T ⟨root, project, py_full, mm, mm_nodec⟩
          (mkSkeleton root st)).fs = _
      rw [renderTemplates_fs]
      simp [createFsFun, h1, h2, mkSkeleton]
  · rw [show create_project T ok root project py_full mm mm_nodec st
        = ({ renderTemplates T ⟨root, project, py_full, mm, mm_nodec⟩
              (mkSkeleton root st) with
            trace := (renderTemplates T ⟨root, project, py_full, mm, mm_nodec⟩
                (mkSkeleton root st)).trace
              ++ [Event.ran "uv" ["python", "install", py_full]] },
           Except.error (s!"command uv failed")) by
      simp only [create_project]
      rw [install_uv_toolchain_eq_fail1 _ _ (by simpa using h1)]]
    show (renderTemplates T ⟨root, project, py_full, mm, mm_nodec⟩
        (mkSkeleton root st)).fs = _
    rw [renderTemplates_fs]
    simp [createFsFun, h1, mkSkeleton]

/-! ## Claim theorems: create action -/

/-- C1 (counterexample): with every external command failing, a create
run on an empty filesystem leaves the Makefile absent even though the
other static files exist, the package manager was invoked, and the run
failed — so the Makefile is not written before toolchain provisioning
and provisioning is not last. -/
theorem c1_counterexample :
    ((create_project sampleTemplates uvNever ["proj"] "p" "3.11.0" "3.11" "311"
        ⟨emptyFs, []⟩).1).fs (["proj"] ++ ["Makefile"]) = Node.absent ∧
    ((create_project sampleTemplates uvNever ["proj"] "p" "3.11.0" "3.11" "311"
        ⟨emptyFs, []⟩).1).fs (["proj"] ++ ["README.md"]) = Node.file "p" ∧
    Event.ran "uv" ["python", "install", "3.11.0"]
      ∈ ((create_project sampleTemplates uvNever ["proj"] "p" "3.11.0" "3.11" "311"
          ⟨emptyFs, []⟩).1).trace ∧
    (∃ e, (create_project sampleTemplates uvNever ["proj"] "p" "3.11.0" "3.11" "311"
        ⟨emptyFs, []⟩).2 = Except.error e) := by
  refine ⟨rfl, rfl, by decide, ⟨_, rfl⟩⟩

/-- C1 (amended): the render operations run in the source order — the
nine template groups, then the two toolchain commands, then the
Makefile; every generated file except the Makefile is written before
the package manager is invoked, and the Makefile is written only after
both toolchain commands succeed. -/
theorem c1_render_order (T : Templates) (ok : String → List String → Bool)
    (root : FsPath) (project py_full mm mm_nodec : String) (st : RunState) :
    ((create_project T ok root project py_full mm mm_nodec st).1).trace
      = st.trace ++ preUvWrites root
        ++ Event.ran "uv" ["python", "install", py_full]
          :: (if ok "uv" ["python", "install", py_full] then
                Event.ran "uv" ["venv", "--python", py_full, ".venv"]
                  :: (if ok "uv" ["venv", "--python", py_full, ".venv"] then
                        [Event.wrote (root ++ ["Makefile"])]
                      else [])
              else []) := by
  by_cases h1 : ok "uv" ["python", "install", py_full] = true
  · by_cases h2 : ok "uv" ["venv", "--python", py_full, ".venv"] = true
    · simp only [create_project]
      rw [install_uv_toolchain_eq_ok _ _ h1 h2]
      simp [wirte_makefile, writeFile, renderTemplates_trace, mkSkeleton_trace,
        h1, h2, List.append_assoc]
    · simp only [create_project]
      rw [install_uv_toolchain_eq_fail2 _ _ h1 (by simpa using h2)]
      simp [renderTemplates_trace, mkSkeleton_trace, h1, h2, List.append_assoc]
  · simp only [create_project]
    rw [install_uv_toolchain_eq_fail1 _ _ (by simpa using h1)]
    simp [renderTemplates_trace, mkSkeleton_trace, h1, List.append_assoc]

/-- C7: running create twice with the same inputs leaves exactly the
file contents of the first run (the toolchain commands' external
effects are outside the model). -/
theorem c7_create_idempotent (T : Templates) (ok : String → List String → Bool)
    (root : FsPath) (project py_full mm mm_nodec : String) (st : RunState)
    (tr : List Event) :
    ((create_project T ok root project py_full mm mm_nodec
        ⟨((create_project T ok root project py_full mm mm_nodec st).1).fs, tr⟩).1).fs
      = ((create_project T ok root project py_full mm mm_nodec st).1).fs := by
  rw [create_project_fst_fs, create_project_fst_fs]
  exact maskedConst_idem
    (maskedConst_createFsFun T ok root project py_full mm mm_nodec) st.fs

/-! ## Claim theorems: dispatcher -/

/-- C6: a delete request without `--yes` fails with the refusal message
(which names the `--yes` flag), leaves the state untouched, and exits
non-zero. -/
theorem c6_delete_refused (T : Templates) (ok : String → List String → Bool)
    (fails : FsPath → Bool) (cli : Cli) (root : FsPath) (project py_full : String)
    (st : RunState)
    (hd : cli.delete_project = true) (hy : cli.yes = false)
    (hc : cli.create_project = false) (hl : cli.clean_project = false) :
    mainRun T ok fails cli root project py_full st = (st, Except.error refusalMsg) ∧
    "--yes".data <:+: refusalMsg.data ∧
    exitCode (mainRun T ok fails cli root project py_full st).2 = 1 := by
  have hm : mainRun T ok fails cli root project py_full st
      = (st, Except.error refusalMsg) := by
    simp [mainRun, hd, hy, hc, hl]
  refine ⟨hm, by decide, by rw [hm]; rfl⟩

/-- Witness for C6 at a concrete invocation. -/
theorem c6_delete_refused_witness :
    mainRun sampleTemplates uvNever (fun _ => false) ⟨false, false, true, false⟩
        ["proj"] "p" "3.11.0" ⟨emptyFs, []⟩
      = (⟨emptyFs, []⟩, Except.error refusalMsg) ∧
    "--yes".data <:+: refusalMsg.data ∧
    exitCode (mainRun sampleTemplates uvNever (fun _ => false)
        ⟨false, false, true, false⟩ ["proj"] "p" "3.11.0" ⟨emptyFs, []⟩).2 = 1 :=
  c6_delete_refused sampleTemplates uvNever (fun _ => false)
    ⟨false, false, true, false⟩ ["proj"] "p" "3.11.0" ⟨emptyFs, []⟩ rfl rfl rfl rfl

/-- C8: in any invocation that requests delete without `--yes`, the
requested subset of create and clean runs first and its filesystem
effects persist in the final state — the final filesystem is the
clean-if-requested of the create-if-requested of the initial one —
while delete alone is refused and the run ends with the refusal error.
(When create is requested, the toolchain commands are assumed to
succeed so that create completes, as in the claim.) -/
theorem c8_refused_delete_keeps_effects (T : Templates)
    (ok : String → List String → Bool) (fails : FsPath → Bool) (cli : Cli)
    (root : FsPath) (project py_full : String) (st : RunState)
    (hd : cli.delete_project = true) (hy : cli.yes = false)
    (h1 : cli.create_project = true →
      ok "uv" ["python", "install", py_full] = true)
    (h2 : cli.create_project = true →
      ok "uv" ["venv", "--python", py_full, ".venv"] = true) :
    (mainRun T ok fails cli root project py_full st).2 = Except.error refusalMsg ∧
    ((mainRun T ok fails cli root project py_full st).1).fs
      = (if cli.clean_project then
           (clean_project fails root
             (if cli.create_project then
                ((create_project T ok root project py_full (mmOf py_full)
                  (mmNodecOf py_full) st).1).fs
              else st.fs)).1
         else
           (if cli.create_project then
              ((create_project T ok root project py_full (mmOf py_full)
                (mmNodecOf py_full) st).1).fs
            else st.fs)) := by
  by_cases hc : cli.create_project = true
  · have hcreate : ∃ st1, create_project T ok root project py_full (mmOf py_full)
        (mmNodecOf py_full) st = (st1, Except.ok ()) := by
      simp only [create_project]
      rw [install_uv_toolchain_eq_ok _ _ (h1 hc) (h2 hc)]
      exact ⟨_, rfl⟩
    obtain ⟨st1, hcr⟩ := hcreate
    by_cases hl : cli.clean_project = true
    · exact ⟨by simp [mainRun, hc, hl, hd, hy, hcr, clean_project],
        by simp [mainRun, hc, hl, hd, hy, hcr, clean_project]⟩
    · exact ⟨by simp [mainRun, hc, hl, hd, hy, hcr, clean_project],
        by simp [mainRun, hc, hl, hd, hy, hcr, clean_project]⟩
  · by_cases hl : cli.clean_project = true
    · exact ⟨by simp [mainRun, hc, hl, hd, hy, clean_project],
        by simp [mainRun, hc, hl, hd, hy, clean_project]⟩
    · exact ⟨by simp [mainRun, hc, hl, hd, hy, clean_project],
        by simp [mainRun, hc, hl, hd, hy, clean_project]⟩

/-- Witness for C8 at a concrete invocation requesting create, clean
and delete without `--yes`, with an always-succeeding package
manager. -/
theorem c8_refused_delete_keeps_effects_witness :
    (mainRun sampleTemplates uvAlways (fun _ => false) ⟨true, true, true, false⟩
        ["proj"] "p" "3.11.0" ⟨emptyFs, []⟩).2 = Except.error refusalMsg ∧
    ((mainRun sampleTemplates uvAlways (fun _ => false) ⟨true, true, true, false⟩
        ["proj"] "p" "3.11.0" ⟨emptyFs, []⟩).1).fs
      = (clean_project (fun _ => false) ["proj"]
          ((create_project sampleTemplates uvAlways ["proj"] "p" "3.11.0"
            (mmOf "3.11.0") (mmNodecOf "3.11.0") ⟨emptyFs, []⟩).1).fs).1 :=
  c8_refused_delete_keeps_effects sampleTemplates uvAlways (fun _ => false)
    ⟨true, true, true, false⟩ ["proj"] "p" "3.11.0" ⟨emptyFs, []⟩
    rfl rfl (fun _ => rfl) (fun _ => rfl)

end PyProj
